import Mathlib

/-!
Shallow embedding of the connection status facade of a libpq binding
(src/connection/_status.rs), together with the foreign helpers it calls,
and proofs of its specification properties.

A raw text buffer returned by the external collaborator is modelled as
`Option (List Char)`: `none` is a null pointer and `some cs` is a
non-null nul-terminated buffer whose content up to the terminator is
`cs`.  Fallible operations (including an abort on a broken contract) are
modelled with `Option` or `Except`.
-/

/-- Raw nul-terminated text buffer reference from the collaborator:
`none` models a null pointer, `some cs` a non-null buffer whose bytes up
to the terminator are `cs`. -/
abbrev RawBuf : Type := Option (List Char)

/-- Raw null-terminated array of buffer references: `none` models a null
array pointer; each element is a non-null buffer. -/
abbrev RawArray : Type := Option (List (List Char))

/-- Raw implementation-specific object pointer returned by the
collaborator: `none` models a null pointer, `some p` a non-null pointer
identified opaquely.  The facade forwards it without dereferencing or
marshalling. -/
abbrev RawPtr : Type := Option Nat

/-- Modelled from the spec: `crate::ffi::to_option_string` (the spec's
`read_optional`), whose source is not under src/.  A null reference maps
to absence; a non-null reference maps to a present owned copy of the
bytes, even when that copy is empty. -/
def ffi.to_option_string : RawBuf → Option String
  | none => none
  | some cs => some (String.mk cs)

/-- Modelled from the spec: `crate::ffi::to_string` (the spec's
`read_required`), whose source is not under src/.  The buffer is
guaranteed non-null by the collaborator's contract; a null buffer is a
fatal internal-invariant violation, modelled here as `none` (abort),
never as empty text.  A non-null buffer yields an owned copy of its
bytes up to the terminator. -/
def ffi.to_string : RawBuf → Option String
  | none => none
  | some cs => some (String.mk cs)

/-- Modelled from the spec: `crate::ffi::vec_from_nta` (the spec's
`read_array`), whose source is not under src/.  A null array reference
maps to the empty sequence; a non-null null-terminated array maps to the
finite, order-preserving sequence of owned copies of its buffers. -/
def ffi.vec_from_nta : RawArray → List String
  | none => []
  | some rows => rows.map String.mk

/-- Protocol-mismatch failure: an integer status code outside the known
enumeration, indicating version skew with the external collaborator. -/
inductive ProtocolMismatch
  | protocolMismatch
  deriving DecidableEq

/-- Modelled from the spec: the connection lifecycle status enumeration
(crate::connection::Status, not under src/): ok, bad, and the transient
intermediate handshake states. -/
inductive connection.Status
  | ok
  | bad
  | started
  | made
  | awaitingResponse
  | authOk
  | setenv
  | sslStartup
  | needed
  | checkWritable
  deriving DecidableEq

/-- Modelled from the spec: the in-transaction status enumeration
(crate::transaction::Status, not under src/): outside any transaction,
command in flight, inside an open transaction, inside a failed
transaction, or presently undeterminable. -/
inductive transaction.Status
  | idle
  | active
  | inTrans
  | inError
  | unknown
  deriving DecidableEq

/-- The known lifecycle code range documented by the external protocol:
codes 0 through 9. -/
abbrev inLifecycleRange (c : Int) : Prop := 0 ≤ c ∧ c < 10

/-- The known transaction code range documented by the external
protocol: codes 0 through 4. -/
abbrev inTransactionRange (c : Int) : Prop := 0 ≤ c ∧ c < 5

/-- Modelled from the spec: the lifecycle status-code translator (the
conversion impl for crate::connection::Status, not under src/).  An
exhaustive match over the known code space; an unrecognized code fails
with ProtocolMismatch rather than defaulting. -/
def translate_lifecycle (code : Int) : Except ProtocolMismatch connection.Status :=
  if code = 0 then .ok .ok
  else if code = 1 then .ok .bad
  else if code = 2 then .ok .started
  else if code = 3 then .ok .made
  else if code = 4 then .ok .awaitingResponse
  else if code = 5 then .ok .authOk
  else if code = 6 then .ok .setenv
  else if code = 7 then .ok .sslStartup
  else if code = 8 then .ok .needed
  else if code = 9 then .ok .checkWritable
  else .error .protocolMismatch

/-- Modelled from the spec: the transaction status-code translator (the
conversion impl for crate::transaction::Status, not under src/).  An
exhaustive match over the known code space; an unrecognized code fails
with ProtocolMismatch rather than defaulting. -/
def translate_transaction (code : Int) : Except ProtocolMismatch transaction.Status :=
  if code = 0 then .ok .idle
  else if code = 1 then .ok .active
  else if code = 2 then .ok .inTrans
  else if code = 3 then .ok .inError
  else if code = 4 then .ok .unknown
  else .error .protocolMismatch

/-- Modelled from the spec: the transport-security attribute names
(crate::ssl::Attribute, not under src/): a small set of known enumerated
tags plus an unrecognized/extension fallback tag retaining the raw
name. -/
inductive ssl.Attribute
  | library
  | keyBits
  | cipher
  | compression
  | protocol
  | unrecognized (name : String)
  deriving DecidableEq

/-- Modelled from the spec: the textual name of a transport-security
attribute, as passed to the collaborator. -/
def ssl.Attribute.toString : ssl.Attribute → String
  | .library => "library"
  | .keyBits => "key_bits"
  | .cipher => "cipher"
  | .compression => "compression"
  | .protocol => "protocol"
  | .unrecognized name => name

/-- Modelled from the spec: resolution of a raw attribute name reported
by the collaborator to a known enumerated tag, or to the
unrecognized/extension fallback tag; no name is ever dropped. -/
def ssl.Attribute.ofString (name : String) : ssl.Attribute :=
  if name = "library" then .library
  else if name = "key_bits" then .keyBits
  else if name = "cipher" then .cipher
  else if name = "compression" then .compression
  else if name = "protocol" then .protocol
  else .unrecognized name

/-- The collaborator-visible state of an established connection handle:
the raw buffers and scalar codes each facade accessor reads.  Run-time
parameters are modelled per the spec as a tracked association list plus
the collaborator's defined sentinel for untracked names. -/
structure Connection where
  raw_db : RawBuf
  raw_user : RawBuf
  raw_pass : RawBuf
  raw_host : RawBuf
  raw_port : RawBuf
  raw_tty : RawBuf
  raw_options : RawBuf
  raw_error_message : RawBuf
  raw_status_code : Int
  raw_transaction_code : Int
  tracked_params : List (String × List Char)
  param_sentinel : List Char
  raw_protocol_version : Int
  raw_server_version : Int
  raw_socket : Int
  raw_backend_pid : Int
  raw_needs_password : Int
  raw_used_password : Int
  raw_ssl_in_use : Int
  raw_ssl_attribute : String → RawBuf
  raw_ssl_attribute_names : RawArray
  raw_ssl_struct : String → RawPtr
  raw_ssl : RawPtr

/-- Modelled from the spec: the collaborator's run-time parameter lookup
behind PQparameterStatus; an untracked parameter is reported as a
defined sentinel buffer, never as a null reference, at this layer. -/
def pq.PQparameterStatus (conn : Connection) (param : String) : List Char :=
  match conn.tracked_params.lookup param with
  | some v => v
  | none => conn.param_sentinel

/-- Returns the database name of the connection (required text). -/
def Connection.db (self : Connection) : Option String :=
  ffi.to_string self.raw_db

/-- Returns the user name of the connection (required text). -/
def Connection.user (self : Connection) : Option String :=
  ffi.to_string self.raw_user

/-- Returns the password of the connection (optional text). -/
def Connection.pass (self : Connection) : Option String :=
  ffi.to_option_string self.raw_pass

/-- Returns the server host name of the active connection (required
text). -/
def Connection.host (self : Connection) : Option String :=
  ffi.to_string self.raw_host

/-- Returns the port of the active connection (required text). -/
def Connection.port (self : Connection) : Option String :=
  ffi.to_string self.raw_port

/-- Returns the debug TTY of the connection (optional text); deprecated
but retained for backward compatibility. -/
def Connection.tty (self : Connection) : Option String :=
  ffi.to_option_string self.raw_tty

/-- Returns the command-line options passed in the connection request
(optional text). -/
def Connection.options (self : Connection) : Option String :=
  ffi.to_option_string self.raw_options

/-- Returns the status of the connection, translating the raw code. -/
def Connection.status (self : Connection) : Except ProtocolMismatch connection.Status :=
  translate_lifecycle self.raw_status_code

/-- Returns the current in-transaction status of the server, translating
the raw code. -/
def Connection.transaction_status (self : Connection) : Except ProtocolMismatch transaction.Status :=
  translate_transaction self.raw_transaction_code

/-- Looks up a current parameter setting of the server (required
text). -/
def Connection.parameter_status (self : Connection) (param : String) : Option String :=
  ffi.to_string (some (pq.PQparameterStatus self param))

/-- Interrogates the frontend/backend protocol being used (scalar
pass-through). -/
def Connection.protocol_version (self : Connection) : Int :=
  self.raw_protocol_version

/-- Returns an integer representing the server version (scalar
pass-through). -/
def Connection.server_version (self : Connection) : Int :=
  self.raw_server_version

/-- Returns the error message most recently generated on the connection
(optional text). -/
def Connection.error_message (self : Connection) : Option String :=
  ffi.to_option_string self.raw_error_message

/-- Obtains the file descriptor number of the connection socket: a
negative raw value becomes the error variant, a non-negative raw value
is returned as it is. -/
def Connection.socket (self : Connection) : Except Unit Int :=
  if self.raw_socket < 0 then Except.error () else Except.ok self.raw_socket

/-- Returns the process ID of the backend process: the raw signed 32-bit
value reinterpreted with unsigned semantics (the Rust cast as u32),
that is, reduced modulo 2 to the 32nd power (4294967296). -/
def Connection.backend_pid (self : Connection) : Nat :=
  (self.raw_backend_pid % 4294967296).toNat

/-- Returns true when the authentication method required a password but
none was available: explicit comparison of the raw code against the
sentinel 1. -/
def Connection.needs_password (self : Connection) : Bool :=
  self.raw_needs_password == 1

/-- Returns true when the authentication method used a password:
explicit comparison of the raw code against the sentinel 1. -/
def Connection.used_password (self : Connection) : Bool :=
  self.raw_used_password == 1

/-- Returns true when the connection uses SSL: explicit comparison of
the raw code against the sentinel 1. -/
def Connection.ssl_in_use (self : Connection) : Bool :=
  self.raw_ssl_in_use == 1

/-- Returns SSL-related information about the connection: a null result
is absence, a non-null result is marshalled as optional text. -/
def Connection.ssl_attribute (self : Connection) (attr : ssl.Attribute) : Option String :=
  match self.raw_ssl_attribute attr.toString with
  | none => none
  | some raw => ffi.to_option_string (some raw)

/-- Returns the SSL attribute names available: the null-terminated array
is read and every raw name is resolved to an attribute tag. -/
def Connection.ssl_attribute_names (self : Connection) : List ssl.Attribute :=
  (ffi.vec_from_nta self.raw_ssl_attribute_names).map (fun x => ssl.Attribute.ofString x)

/-- Returns a pointer to an SSL-implementation-specific object
describing the connection, looked up by structure name and forwarded as
an opaque raw pointer. -/
def Connection.ssl_struct (self : Connection) (struct_name : String) : RawPtr :=
  self.raw_ssl_struct struct_name

/-- Returns the SSL structure used in the connection, or null when SSL
is not in use, forwarded as an opaque raw pointer. -/
def Connection.ssl (self : Connection) : RawPtr :=
  self.raw_ssl

/-- The observable output of one facade operation. -/
inductive Out
  | text (v : Option String)
  | lifecycle (v : Except ProtocolMismatch connection.Status)
  | transact (v : Except ProtocolMismatch transaction.Status)
  | scalar (v : Int)
  | unsigned (v : Nat)
  | flag (v : Bool)
  | sock (v : Except Unit Int)
  | attrs (v : List ssl.Attribute)
  | ptr (v : RawPtr)

/-- The operations of the connection status facade. -/
inductive Op
  | db
  | user
  | pass
  | host
  | port
  | tty
  | options
  | status
  | transaction_status
  | parameter_status (param : String)
  | protocol_version
  | server_version
  | error_message
  | socket
  | backend_pid
  | needs_password
  | used_password
  | ssl_in_use
  | ssl_attribute (attr : ssl.Attribute)
  | ssl_attribute_names
  | ssl_struct (struct_name : String)
  | ssl

/-- One facade call: each operation borrows the connection state,
performs its single read against it, and returns the state it was given
together with the marshalled output; no operation writes any field. -/
def run : Op → Connection → Connection × Out
  | .db, conn => (conn, .text conn.db)
  | .user, conn => (conn, .text conn.user)
  | .pass, conn => (conn, .text conn.pass)
  | .host, conn => (conn, .text conn.host)
  | .port, conn => (conn, .text conn.port)
  | .tty, conn => (conn, .text conn.tty)
  | .options, conn => (conn, .text conn.options)
  | .status, conn => (conn, .lifecycle conn.status)
  | .transaction_status, conn => (conn, .transact conn.transaction_status)
  | .parameter_status p, conn => (conn, .text (conn.parameter_status p))
  | .protocol_version, conn => (conn, .scalar conn.protocol_version)
  | .server_version, conn => (conn, .scalar conn.server_version)
  | .error_message, conn => (conn, .text conn.error_message)
  | .socket, conn => (conn, .sock conn.socket)
  | .backend_pid, conn => (conn, .unsigned conn.backend_pid)
  | .needs_password, conn => (conn, .flag conn.needs_password)
  | .used_password, conn => (conn, .flag conn.used_password)
  | .ssl_in_use, conn => (conn, .flag conn.ssl_in_use)
  | .ssl_attribute a, conn => (conn, .text (conn.ssl_attribute a))
  | .ssl_attribute_names, conn => (conn, .attrs conn.ssl_attribute_names)
  | .ssl_struct name, conn => (conn, .ptr (conn.ssl_struct name))
  | .ssl, conn => (conn, .ptr conn.ssl)

/-- A concrete connection state used to instantiate the general
theorems on explicit inputs. -/
def testConn : Connection where
  raw_db := some ['a']
  raw_user := some ['u']
  raw_pass := none
  raw_host := some ['h']
  raw_port := some ['5']
  raw_tty := none
  raw_options := none
  raw_error_message := none
  raw_status_code := 0
  raw_transaction_code := 0
  tracked_params := []
  param_sentinel := []
  raw_protocol_version := 3
  raw_server_version := 150003
  raw_socket := 7
  raw_backend_pid := 42
  raw_needs_password := 0
  raw_used_password := 0
  raw_ssl_in_use := 0
  raw_ssl_attribute := fun _ => none
  raw_ssl_attribute_names := none
  raw_ssl_struct := fun _ => none
  raw_ssl := none

/-- In-range lifecycle codes translate to some enumeration variant. -/
lemma translate_lifecycle_ok_of (c : Int) (h0 : 0 ≤ c) (h1 : c < 10) :
    ∃ s, translate_lifecycle c = Except.ok s := by
  interval_cases c <;> exact ⟨_, rfl⟩

/-- Out-of-range lifecycle codes are rejected with ProtocolMismatch. -/
lemma translate_lifecycle_error_of (c : Int) (h : ¬ (0 ≤ c ∧ c < 10)) :
    translate_lifecycle c = Except.error ProtocolMismatch.protocolMismatch := by
  have h0 : c ≠ 0 := by omega
  have h1 : c ≠ 1 := by omega
  have h2 : c ≠ 2 := by omega
  have h3 : c ≠ 3 := by omega
  have h4 : c ≠ 4 := by omega
  have h5 : c ≠ 5 := by omega
  have h6 : c ≠ 6 := by omega
  have h7 : c ≠ 7 := by omega
  have h8 : c ≠ 8 := by omega
  have h9 : c ≠ 9 := by omega
  simp [translate_lifecycle, h0, h1, h2, h3, h4, h5, h6, h7, h8, h9]

/-- In-range transaction codes translate to some enumeration variant. -/
lemma translate_transaction_ok_of (c : Int) (h0 : 0 ≤ c) (h1 : c < 5) :
    ∃ s, translate_transaction c = Except.ok s := by
  interval_cases c <;> exact ⟨_, rfl⟩

/-- Out-of-range transaction codes are rejected with ProtocolMismatch. -/
lemma translate_transaction_error_of (c : Int) (h : ¬ (0 ≤ c ∧ c < 5)) :
    translate_transaction c = Except.error ProtocolMismatch.protocolMismatch := by
  have h0 : c ≠ 0 := by omega
  have h1 : c ≠ 1 := by omega
  have h2 : c ≠ 2 := by omega
  have h3 : c ≠ 3 := by omega
  have h4 : c ≠ 4 := by omega
  simp [translate_transaction, h0, h1, h2, h3, h4]

/-- C1: the status-code translators are total over the documented code
range and reject every code outside it with ProtocolMismatch, and the
facade operations status and transaction_status read their raw codes
through exactly these translators. -/
theorem status_translators_total_and_reject (c : Int) (conn : Connection) :
    (inLifecycleRange c → ∃ s, translate_lifecycle c = Except.ok s)
      ∧ (¬ inLifecycleRange c →
          translate_lifecycle c = Except.error ProtocolMismatch.protocolMismatch)
      ∧ (inTransactionRange c → ∃ s, translate_transaction c = Except.ok s)
      ∧ (¬ inTransactionRange c →
          translate_transaction c = Except.error ProtocolMismatch.protocolMismatch)
      ∧ conn.status = translate_lifecycle conn.raw_status_code
      ∧ conn.transaction_status = translate_transaction conn.raw_transaction_code :=
  ⟨fun h => translate_lifecycle_ok_of c h.1 h.2,
   fun h => translate_lifecycle_error_of c h,
   fun h => translate_transaction_ok_of c h.1 h.2,
   fun h => translate_transaction_error_of c h,
   rfl, rfl⟩

/-- Witness for C1: code 0 translates, code 99 is rejected, in both
translators. -/
theorem status_translators_total_and_reject_w :
    (∃ s, translate_lifecycle 0 = Except.ok s)
      ∧ translate_lifecycle 99 = Except.error ProtocolMismatch.protocolMismatch
      ∧ (∃ s, translate_transaction 0 = Except.ok s)
      ∧ translate_transaction 99 = Except.error ProtocolMismatch.protocolMismatch :=
  ⟨(status_translators_total_and_reject 0 testConn).1 (by decide),
   (status_translators_total_and_reject 99 testConn).2.1 (by decide),
   (status_translators_total_and_reject 0 testConn).2.2.1 (by decide),
   (status_translators_total_and_reject 99 testConn).2.2.2.1 (by decide)⟩

/-- C2: for every optional-text accessor (pass, options, error_message,
tty, ssl_attribute), a null buffer reference yields None, an
empty-but-non-null buffer reference yields Some of the empty text, and
the two outcomes are never equal. -/
theorem optional_text_null_vs_empty (conn : Connection) (a : ssl.Attribute) :
    ({ conn with raw_pass := none } : Connection).pass = none
      ∧ ({ conn with raw_pass := some [] } : Connection).pass = some ""
      ∧ ({ conn with raw_options := none } : Connection).options = none
      ∧ ({ conn with raw_options := some [] } : Connection).options = some ""
      ∧ ({ conn with raw_error_message := none } : Connection).error_message = none
      ∧ ({ conn with raw_error_message := some [] } : Connection).error_message = some ""
      ∧ ({ conn with raw_tty := none } : Connection).tty = none
      ∧ ({ conn with raw_tty := some [] } : Connection).tty = some ""
      ∧ ({ conn with raw_ssl_attribute := fun _ => none } : Connection).ssl_attribute a = none
      ∧ ({ conn with raw_ssl_attribute := fun _ => some [] } : Connection).ssl_attribute a
          = some ""
      ∧ (none : Option String) ≠ some "" :=
  ⟨rfl, rfl, rfl, rfl, rfl, rfl, rfl, rfl, rfl, rfl, by simp⟩

/-- C3: socket returns the error variant for every negative raw
descriptor and Ok n for every non-negative raw value n; raw -1 is the
error and raw 0 is Ok 0. -/
theorem socket_rejects_negative (conn : Connection) :
    (conn.raw_socket < 0 → conn.socket = Except.error ())
      ∧ (0 ≤ conn.raw_socket → conn.socket = Except.ok conn.raw_socket)
      ∧ ({ conn with raw_socket := -1 } : Connection).socket = Except.error ()
      ∧ ({ conn with raw_socket := 0 } : Connection).socket = Except.ok 0 := by
  refine ⟨fun h => ?_, fun h => ?_, ?_, ?_⟩
  · unfold Connection.socket
    rw [if_pos h]
  · unfold Connection.socket
    rw [if_neg (by omega)]
  · rfl
  · rfl

/-- Witness for C3: the boundary raw values -1 and 7 on a concrete
connection. -/
theorem socket_rejects_negative_w :
    ({ testConn with raw_socket := -1 } : Connection).socket = Except.error ()
      ∧ ({ testConn with raw_socket := 7 } : Connection).socket = Except.ok 7 :=
  ⟨(socket_rejects_negative ({ testConn with raw_socket := -1 })).1 (by decide),
   (socket_rejects_negative ({ testConn with raw_socket := 7 })).2.1 (by decide)⟩

/-- C4: every required-text accessor (db, user, host, port) aborts
(modelled as none) when the collaborator breaks its non-null contract,
never silently yielding empty text there, and returns an owned copy of
the bytes of a non-null buffer. -/
theorem required_text_contract (conn : Connection) (cs : List Char) :
    ({ conn with raw_db := none } : Connection).db = none
      ∧ ({ conn with raw_db := none } : Connection).db ≠ some ""
      ∧ ({ conn with raw_db := some cs } : Connection).db = some (String.mk cs)
      ∧ ({ conn with raw_user := none } : Connection).user = none
      ∧ ({ conn with raw_user := none } : Connection).user ≠ some ""
      ∧ ({ conn with raw_user := some cs } : Connection).user = some (String.mk cs)
      ∧ ({ conn with raw_host := none } : Connection).host = none
      ∧ ({ conn with raw_host := none } : Connection).host ≠ some ""
      ∧ ({ conn with raw_host := some cs } : Connection).host = some (String.mk cs)
      ∧ ({ conn with raw_port := none } : Connection).port = none
      ∧ ({ conn with raw_port := none } : Connection).port ≠ some ""
      ∧ ({ conn with raw_port := some cs } : Connection).port = some (String.mk cs) :=
  ⟨rfl, by simp [Connection.db, ffi.to_string], rfl,
   rfl, by simp [Connection.user, ffi.to_string], rfl,
   rfl, by simp [Connection.host, ffi.to_string], rfl,
   rfl, by simp [Connection.port, ffi.to_string], rfl⟩

/-- C5: each boolean accessor is true exactly when the raw code equals
the sentinel 1; other nonzero codes yield false. -/
theorem boolean_sentinel_comparison (conn : Connection) :
    (conn.needs_password = true ↔ conn.raw_needs_password = 1)
      ∧ (conn.used_password = true ↔ conn.raw_used_password = 1)
      ∧ (conn.ssl_in_use = true ↔ conn.raw_ssl_in_use = 1)
      ∧ ({ conn with raw_ssl_in_use := 2 } : Connection).ssl_in_use = false
      ∧ ({ conn with raw_needs_password := -1 } : Connection).needs_password = false
      ∧ ({ conn with raw_used_password := 2 } : Connection).used_password = false := by
  refine ⟨?_, ?_, ?_, ?_, ?_, ?_⟩ <;>
    simp [Connection.needs_password, Connection.used_password, Connection.ssl_in_use]

/-- C6: ssl_attribute_names on a null array reference returns the empty
sequence, and on a non-null array returns the order-preserving
resolution of every raw name, of the same length; an unknown name
resolves to the unrecognized/extension fallback tag rather than being
dropped. -/
theorem ssl_attribute_names_never_drop (conn : Connection) (rows : List (List Char)) :
    ({ conn with raw_ssl_attribute_names := none } : Connection).ssl_attribute_names = []
      ∧ ({ conn with raw_ssl_attribute_names := some rows } : Connection).ssl_attribute_names
          = rows.map (fun r => ssl.Attribute.ofString (String.mk r))
      ∧ ({ conn with
            raw_ssl_attribute_names := some rows } : Connection).ssl_attribute_names.length
          = rows.length
      ∧ ssl.Attribute.ofString "protocol" = ssl.Attribute.protocol
      ∧ ssl.Attribute.ofString "zzz" = ssl.Attribute.unrecognized "zzz" := by
  refine ⟨rfl, ?_, ?_, by decide, by decide⟩
  · simp [Connection.ssl_attribute_names, ffi.vec_from_nta, List.map_map]
  · simp [Connection.ssl_attribute_names, ffi.vec_from_nta, List.map_map]

/-- C7: parameter_status always returns a present text value for every
parameter name; an untracked parameter surfaces the collaborator's
defined sentinel, never absence. -/
theorem parameter_status_never_absent (conn : Connection) (param : String) :
    conn.parameter_status param = some (String.mk (pq.PQparameterStatus conn param))
      ∧ conn.parameter_status param ≠ none
      ∧ (conn.tracked_params.lookup param = none →
          conn.parameter_status param = some (String.mk conn.param_sentinel)) := by
  refine ⟨rfl, by simp [Connection.parameter_status, ffi.to_string], fun h => ?_⟩
  simp [Connection.parameter_status, ffi.to_string, pq.PQparameterStatus, h]

/-- Witness for C7: on a concrete connection tracking no parameters, the
lookup of an arbitrary name yields the sentinel as present text. -/
theorem parameter_status_never_absent_w :
    testConn.parameter_status "application_name" = some (String.mk testConn.param_sentinel) :=
  (parameter_status_never_absent testConn "application_name").2.2 rfl

/-- C8: backend_pid applies two's-complement reinterpretation of the raw
signed 32-bit value: the result is congruent to the raw value modulo
2 to the 32nd power, lies below 2 to the 32nd power, and a negative raw
value in the signed 32-bit range maps to the raw value plus 2 to the
32nd power; the operation is total. -/
theorem backend_pid_unsigned_semantics (conn : Connection) :
    ((conn.backend_pid : Int) % 4294967296 = conn.raw_backend_pid % 4294967296)
      ∧ conn.backend_pid < 4294967296
      ∧ (-2147483648 ≤ conn.raw_backend_pid → conn.raw_backend_pid < 0 →
          (conn.backend_pid : Int) = conn.raw_backend_pid + 4294967296) := by
  unfold Connection.backend_pid
  refine ⟨?_, ?_, fun h1 h2 => ?_⟩ <;> omega

/-- Witness for C8: raw value -1 maps to 4294967295. -/
theorem backend_pid_unsigned_semantics_w :
    ((({ testConn with raw_backend_pid := -1 } : Connection).backend_pid : Int))
      = 4294967295 :=
  (backend_pid_unsigned_semantics ({ testConn with raw_backend_pid := -1 })).2.2
    (by decide) (by decide)

/-- C9: every operation of the Connection status impl, the raw-pointer
accessors ssl_struct and ssl included, leaves the collaborator-visible
connection state unchanged: the facade is a pure read/query layer. -/
theorem facade_preserves_connection_state (op : Op) (conn : Connection) :
    (run op conn).1 = conn := by
  cases op <;> rfl

/-- C10: the deprecated tty accessor is retained and forwards the live
collaborator value with ordinary optional-text marshalling: a null
buffer maps to None, a non-null buffer maps to Some of the copied text,
and the result is not a fixed sentinel. -/
theorem tty_forwards_live_value (conn : Connection) (cs : List Char) :
    ({ conn with raw_tty := none } : Connection).tty = none
      ∧ ({ conn with raw_tty := some cs } : Connection).tty = some (String.mk cs)
      ∧ ({ conn with raw_tty := some ['a'] } : Connection).tty
          ≠ ({ conn with raw_tty := none } : Connection).tty := by
  refine ⟨rfl, rfl, ?_⟩
  simp [Connection.tty, ffi.to_option_string]
